import Mathlib

/-!
Shallow embedding of `check_instagram_links.py`: the link-availability
classification engine (platform identifier, signal extractors, per-platform
classifiers, orchestrator `check_one`, sharding and skip policy), together
with theorems settling the frozen specification claims.

Strings are modelled as Lean `String`/`List Char`; Python `str.lower` is
modelled for the ASCII range (all phrase constants and URLs of interest are
ASCII).  Navigation and the secondary browser probe are external effects:
they are modelled as explicit inputs (`Option` observation values, `none`
meaning the navigation call raised).
-/

/-- ASCII model of Python `str.lower`. -/
def lowerStr (s : String) : String := String.mk (s.data.map Char.toLower)

/-- Model of `page_text(page)`: the rendered HTML lowercased (the source also
returns `""` on exception, which is the value of this function at `html = ""`). -/
def page_text (html : String) : String := lowerStr html

/-- Whether `pre` is an initial segment of `l` (Python slice comparison). -/
def startsList (pre l : List Char) : Bool :=
  match pre, l with
  | [], _ => true
  | _ :: _, [] => false
  | a :: as, b :: bs => a == b && startsList as bs

/-- Whether `needle` occurs as a contiguous sublist of the second argument:
the model of Python `needle in haystack` on strings. -/
def listHasSub (needle : List Char) : List Char → Bool
  | [] => needle.isEmpty
  | b :: t => startsList needle (b :: t) || listHasSub needle t

/-- Python `needle in hay` for strings. -/
def strHas (needle hay : String) : Bool := listHasSub needle.data hay.data

/-- Whether `suf` is a final segment of `l`. -/
def endsList (suf l : List Char) : Bool := startsList suf.reverse l.reverse

/-- Source `contains_any(haystack, needles)`. -/
def contains_any (haystack : String) (needles : List String) : Bool :=
  needles.any (fun n => strHas n haystack)

/-- Split a character list at the first occurrence of `c`; `none` if absent
(Python `s.split(c, 1)` when it actually splits). -/
def splitAtFirst (c : Char) : List Char → Option (List Char × List Char)
  | [] => none
  | x :: xs =>
    if x == c then some ([], xs)
    else match splitAtFirst c xs with
      | none => none
      | some (a, b) => some (x :: a, b)

/-- Python `s.split(c)`: keeps empty fields, `""` splits to `[""]`. -/
def splitOnCharL (c : Char) (l : List Char) : List (List Char) :=
  l.foldr
    (fun x acc =>
      if x == c then [] :: acc
      else
        match acc with
        | h :: t => (x :: h) :: t
        | [] => [[x]])
    [[]]

/-- Python `s.rstrip("/")`. -/
def rstripSlashS (s : String) : String :=
  String.mk ((s.data.reverse.dropWhile (fun ch => ch == '/')).reverse)

/-- Characters `urllib.parse.urlsplit` deletes up front (tab, CR, LF). -/
def urlKeepChar (c : Char) : Bool := !(c == '\t' || c == '\r' || c == '\n')

/-- `urllib.parse` scheme characters (letters, digits, `+`, `-`, `.`). -/
def schemeCharOk (c : Char) : Bool :=
  c.isAlpha || c.isDigit || c == '+' || c == '-' || c == '.'

/-- Strip a leading `scheme:` as `urlsplit` does: the part before the first
colon must be nonempty, start with an ASCII letter and consist of scheme
characters; otherwise the URL is left unchanged. -/
def stripScheme (l : List Char) : List Char :=
  match splitAtFirst ':' l with
  | none => l
  | some (pre, rest) =>
    match pre with
    | [] => l
    | h :: _ => if h.isAlpha && pre.all schemeCharOk then rest else l

/-- The components of `urllib.parse.urlparse` used by the source. -/
structure UrlParts where
  netloc : String
  path : String
  query : String
deriving DecidableEq, Repr

/-- Python `urlparse(path)` parameter split `_splitparams`, which removes a
`;params` suffix from the last path segment (applied only when the path has
a semicolon, but it is the identity otherwise, so it is applied always). -/
def splitParamsPath (path : List Char) : List Char :=
  if path.contains '/' then
    let revSeg := path.reverse.takeWhile (fun ch => !(ch == '/'))
    let pre := (path.reverse.dropWhile (fun ch => !(ch == '/'))).reverse
    pre ++ (revSeg.reverse.takeWhile (fun ch => !(ch == ';')))
  else path.takeWhile (fun ch => !(ch == ';'))

/-- Total part of `urllib.parse.urlparse`: unsafe-byte removal, scheme strip,
netloc/fragment/query/params splitting.  The `ValueError` raised on a netloc
with unbalanced square brackets is handled separately by `urlparseO`. -/
def urlparseT (u : String) : UrlParts :=
  let l := (u.data.filter urlKeepChar)
  let l1 := stripScheme l
  let nr :=
    if l1.take 2 == ['/', '/'] then
      (l1.drop 2).span (fun c => !(c == '/' || c == '?' || c == '#'))
    else ([], l1)
  let afterFrag :=
    match splitAtFirst '#' nr.2 with
    | some (b, _) => b
    | none => nr.2
  let pq :=
    match splitAtFirst '?' afterFrag with
    | some (b, a) => (b, a)
    | none => (afterFrag, [])
  ⟨String.mk nr.1, String.mk (splitParamsPath pq.1), String.mk pq.2⟩

/-- The `urlsplit` unbalanced-bracket check that raises `ValueError`. -/
def bracketBad (netloc : String) : Bool :=
  (netloc.data.contains '[' && !netloc.data.contains ']') ||
  (netloc.data.contains ']' && !netloc.data.contains '[')

/-- Model of `urlparse`: `none` when the Python call raises `ValueError`
(unbalanced brackets in the netloc). -/
def urlparseO (u : String) : Option UrlParts :=
  let pr := urlparseT u
  if bracketBad pr.netloc then none else some pr

/-- Keys of `urllib.parse.parse_qs(query)` with default settings: fields split
on `&`, empty fields skipped, fields without `=` or with an empty value
skipped (percent/plus unquoting is omitted; the source only ever tests for
the literal key `v`). -/
def qsKeys (query : List Char) : List (List Char) :=
  (splitOnCharL '&' query).filterMap
    (fun fld =>
      if fld.isEmpty then none
      else
        match splitAtFirst '=' fld with
        | none => none
        | some (k, v) => if v.isEmpty then none else some k)

/-- Source constant `INST_REMOVAL_PHRASES`. -/
def INST_REMOVAL_PHRASES : List String :=
  ["sorry, this page isn't available",
   "the link you followed may be broken",
   "page not found"]

/-- Source constant `YT_REMOVAL`. -/
def YT_REMOVAL : List String :=
  ["video unavailable",
   "this video isn't available anymore"]

/-- Source constant `TT_REMOVAL`. -/
def TT_REMOVAL : List String :=
  ["video currently unavailable"]

/-- Source constant `FB_REMOVAL`. -/
def FB_REMOVAL : List String :=
  ["this content isn't available right now",
   "this content isn't available anymore",
   "the link you followed may be broken",
   "may have been removed",
   "we're sorry, this content isn't available",
   "this video isn't available anymore"]

/-- Source constant `THREADS_UNAVAILABLE_BADGE`. -/
def THREADS_UNAVAILABLE_BADGE : String := "post unavailable"

/-- Source constant `LOGIN_CUES`. -/
def LOGIN_CUES : List String :=
  ["log in",
   "sign up",
   "/accounts/login",
   "login.facebook",
   "log in to facebook"]

/-- Source `host_platform(u)`: platform from the URL netloc by substring
matching; `"unknown"` for unmatched hosts and for URLs on which `urlparse`
raises. -/
def host_platform (u : String) : String :=
  match urlparseO u with
  | none => "unknown"
  | some pr =>
    if strHas "instagram.com" (lowerStr pr.netloc) then "instagram"
    else if strHas "youtube.com" (lowerStr pr.netloc) || strHas "youtu.be" (lowerStr pr.netloc) then "youtube"
    else if strHas "tiktok.com" (lowerStr pr.netloc) then "tiktok"
    else if strHas "facebook.com" (lowerStr pr.netloc) || strHas "fb.watch" (lowerStr pr.netloc) then "facebook"
    else if strHas "threads.net" (lowerStr pr.netloc) || strHas "threads.com" (lowerStr pr.netloc) then "threads"
    else "unknown"

/-- Source `looks_like_login(body, url_now)`. -/
def looks_like_login (body urlNow : String) : Bool :=
  strHas "/accounts/login" urlNow || contains_any body LOGIN_CUES

/-- Source `_fb_watch_missing_v(u)`: after lowercasing, the URL path rstripped
of slashes equals `/watch` and `v` is not a `parse_qs` key; `False` if
`urlparse` raises. -/
def fb_watch_missing_v (u : String) : Bool :=
  match urlparseO (lowerStr u) with
  | none => false
  | some p =>
    rstripSlashS p.path == "/watch" && !((qsKeys p.query.data).contains ['v'])

/-- Source `_fb_reel_missing_id(u)`: the lowercased URL path is a bare `/reel`
or a `/reel/<segment>` whose segment is not all digits; `False` if `urlparse`
raises. -/
def fb_reel_missing_id (u : String) : Bool :=
  match urlparseO (lowerStr u) with
  | none => false
  | some p =>
    if rstripSlashS p.path == "/reel" then true
    else
      match (splitOnCharL '/' p.path.data).filter (fun x => !x.isEmpty) with
      | a :: b :: _ =>
        if a == "reel".data then !(b ≠ [] && b.all Char.isDigit) else false
      | _ => false

/-- Source `_canonical_says_no_media(page)` as a function of the raw canonical
`href` attribute (empty when absent or when the DOM query raised). -/
def canonical_says_no_media (hrefRaw : String) : Bool :=
  if (lowerStr hrefRaw).data.isEmpty then false
  else if strHas "/watch" (lowerStr hrefRaw) then !(strHas "?v=" (lowerStr hrefRaw))
  else if strHas "/reel/" (lowerStr hrefRaw) then
    !(match (splitOnCharL '/' (urlparseT (lowerStr hrefRaw)).path.data).filter (fun x => !x.isEmpty) with
      | a :: b :: _ => a == "reel".data && (b ≠ [] && b.all Char.isDigit)
      | _ => false)
  else false

/-- One navigation's observed page state, as the checkers read it: the page
URL after navigation, the rendered HTML, the HTTP status of the navigation
response (`0` when the response object is `None`), the extracted Open Graph
video / JSON-LD video signals, the raw canonical `href` attribute (empty on
absence or extractor exception), and the Instagram DOM probe results
(`none` when the selector queries raised). -/
structure PageObservation where
  url : String
  html : String
  status : Nat
  ogVideo : Bool
  jsonldVideo : Bool
  canonical : String
  igDomMarkers : Option (Bool × Bool)
deriving DecidableEq, Repr

/-- Result of the secondary-engine `fb_probe` (the source lowercases every
component before returning); `none` in the classifier models the probe
raising. -/
structure ProbeResult where
  finalUrl : String
  body : String
  ogVideo : Bool
  jsonldVideo : Bool
  canonical : String
deriving DecidableEq, Repr

/-- Outcome of the Instagram navigation sequence: first `goto` succeeded,
first `goto` timed out and the `networkidle` fallback succeeded, or
navigation failed (any other exception, or the fallback also raised). -/
inductive IGNav where
  | ok (o : PageObservation)
  | retryOk (o : PageObservation)
  | failed
deriving DecidableEq, Repr

/-- The observation delivered by the Instagram navigation, if any. -/
def igObs : IGNav → Option PageObservation
  | .ok o => some o
  | .retryOk o => some o
  | .failed => none

/-- Source `check_instagram`, as a function of the navigation outcome. -/
def check_instagram (nav : IGNav) : String :=
  match igObs nav with
  | none => "unknown"
  | some o =>
    if contains_any (page_text o.html) (INST_REMOVAL_PHRASES.map lowerStr) then "removed"
    else if looks_like_login (page_text o.html) o.url then "active"
    else
      match o.igDomMarkers with
      | some (m1, m2) => if m1 then "active" else if m2 then "active" else "unknown"
      | none => "unknown"

/-- Source `check_youtube`: `none` models the `goto` raising. -/
def check_youtube (nav : Option PageObservation) : String :=
  match nav with
  | none => "unknown"
  | some o =>
    if contains_any (page_text o.html) (YT_REMOVAL.map lowerStr) then "removed"
    else if o.status ≠ 0 ∧ 200 ≤ o.status ∧ o.status < 400 then "active"
    else "unknown"

/-- Source `check_tiktok`: `none` models the `goto` raising. -/
def check_tiktok (nav : Option PageObservation) : String :=
  match nav with
  | none => "unknown"
  | some o =>
    if contains_any (page_text o.html) (TT_REMOVAL.map lowerStr) then "removed"
    else if o.status ≠ 0 ∧ 200 ≤ o.status ∧ o.status < 400 then "active"
    else "unknown"

/-- Source `check_threads`: `none` models the `goto` raising.  Only the body
and the HTTP status are consulted. -/
def check_threads (nav : Option PageObservation) : String :=
  match nav with
  | none => "unknown"
  | some o =>
    if strHas THREADS_UNAVAILABLE_BADGE (page_text o.html) then "removed"
    else if o.status ≠ 0 ∧ 200 ≤ o.status ∧ o.status < 400 then "active"
    else "unknown"

/-- The secondary-probe match condition of `check_facebook` (source lines
around the `fb_probe` call): removal phrase in the probe body, no probe
video indicator, and a canonical/path missing-id marker on the probe. -/
def fb_secondary_match (pr : ProbeResult) : Bool :=
  (contains_any pr.body (FB_REMOVAL.map lowerStr) && (!pr.ogVideo && !pr.jsonldVideo)) &&
  ((strHas "/watch" pr.canonical && !(strHas "?v=" pr.canonical)) ||
   fb_reel_missing_id pr.canonical ||
   fb_watch_missing_v pr.finalUrl)

/-- The tail of `check_facebook` after the removal rules: video indicator or
video-id/reel marker in the final URL gives `active`, else HTTP-status
fallback, else `unknown`. -/
def fb_tail (o : PageObservation) : String :=
  if o.ogVideo || o.jsonldVideo || strHas "?v=" (lowerStr o.url) || strHas "/reel/" (lowerStr o.url) then "active"
  else if o.status ≠ 0 ∧ 200 ≤ o.status ∧ o.status < 400 then "active"
  else "unknown"

/-- Source `check_facebook`, as a function of the primary navigation outcome
(`none` models `goto` raising), the original URL (used in the source only to
pick the secondary browser engine, which this model folds into the `probe`
input) and the secondary probe outcome (`none` models `fb_probe` raising, or
the probe never running). -/
def check_facebook (nav : Option PageObservation) (url : String)
    (probe : Option ProbeResult) : String :=
  match nav with
  | none => "unknown"
  | some o =>
    if contains_any (page_text o.html) (FB_REMOVAL.map lowerStr) &&
       (!o.ogVideo && !o.jsonldVideo && canonical_says_no_media o.canonical) then "removed"
    else if fb_watch_missing_v (lowerStr o.url) || fb_reel_missing_id (lowerStr o.url) then "removed"
    else if canonical_says_no_media o.canonical && (!o.ogVideo && !o.jsonldVideo) then "removed"
    else if looks_like_login (page_text o.html) (lowerStr o.url) then
      match probe with
      | some pr => if fb_secondary_match pr then "removed" else fb_tail o
      | none => fb_tail o
    else fb_tail o

/-- Source `check_one`: route by `host_platform`; the final branch is the
generic fallback (status success gives `active`, navigation failure or other
status gives `unknown`). -/
def check_one (url : String) (ig : IGNav) (nav : Option PageObservation)
    (probe : Option ProbeResult) : String :=
  if host_platform url = "instagram" then check_instagram ig
  else if host_platform url = "youtube" then check_youtube nav
  else if host_platform url = "tiktok" then check_tiktok nav
  else if host_platform url = "facebook" then check_facebook nav url probe
  else if host_platform url = "threads" then check_threads nav
  else
    match nav with
    | none => "unknown"
    | some o => if o.status ≠ 0 ∧ 200 ≤ o.status ∧ o.status < 400 then "active" else "unknown"

/-- Source `run_sheet` shard filter: the row at ordinal `i` is processed by
the worker with this shard index iff `i % totalShards == shardIndex`
(the source skips the row otherwise). -/
def shard_selected (i shardIndex totalShards : Nat) : Bool :=
  i % totalShards == shardIndex

/-- A parsed `MM/DD/YYYY` date. -/
structure MDYDate where
  month : Nat
  day : Nat
  year : Nat
deriving DecidableEq, Repr

/-- Gregorian leap-year test, as `datetime` uses. -/
def isLeapYear (y : Nat) : Bool :=
  (y % 4 == 0 && y % 100 != 0) || y % 400 == 0

/-- Days in a month, as `datetime` validates. -/
def daysInMonth (y m : Nat) : Nat :=
  if m == 2 then (if isLeapYear y then 29 else 28)
  else if m == 4 || m == 6 || m == 9 || m == 11 then 30
  else 31

/-- The `strptime` `%m` field: `1[0-2]|0[1-9]|[1-9]`. -/
def monthFieldOk (l : List Char) : Bool :=
  match l with
  | [c] => '1' ≤ c && c ≤ '9'
  | [a, b] => (a == '1' && ('0' ≤ b && b ≤ '2')) || (a == '0' && ('1' ≤ b && b ≤ '9'))
  | _ => false

/-- The `strptime` `%d` field: `3[0-1]|[1-2]\d|0[1-9]|[1-9]| [1-9]`. -/
def dayFieldOk (l : List Char) : Bool :=
  match l with
  | [c] => '1' ≤ c && c ≤ '9'
  | [a, b] =>
    (a == '3' && (b == '0' || b == '1')) ||
    (('1' ≤ a && a ≤ '2') && b.isDigit) ||
    (a == '0' && ('1' ≤ b && b ≤ '9')) ||
    (a == ' ' && ('1' ≤ b && b ≤ '9'))
  | _ => false

/-- The `strptime` `%Y` field: exactly four digits. -/
def yearFieldOk (l : List Char) : Bool :=
  l.length == 4 && l.all Char.isDigit

/-- Numeric value of a digit field (a possible leading space, as the `%d`
pattern allows, is skipped). -/
def fieldVal (l : List Char) : Nat :=
  (l.dropWhile (fun ch => ch == ' ')).foldl (fun a c => a * 10 + (c.toNat - 48)) 0

/-- Python whitespace strip, for the ASCII whitespace characters. -/
def stripWs (l : List Char) : List Char :=
  ((l.dropWhile Char.isWhitespace).reverse.dropWhile Char.isWhitespace).reverse

/-- Source `parse_mmddyyyy(s)`: `datetime.strptime(s.strip(), "%m/%d/%Y")`,
`none` when it raises.  The field patterns follow `_strptime`; the day and
year ranges are the `datetime` constructor checks. -/
def parse_mmddyyyy (s : String) : Option MDYDate :=
  match splitOnCharL '/' (stripWs s.data) with
  | [m, d, y] =>
    if monthFieldOk m && dayFieldOk d && yearFieldOk y then
      let mv := fieldVal m
      let dv := fieldVal d
      let yv := fieldVal y
      if 1 ≤ yv ∧ 1 ≤ dv ∧ dv ≤ daysInMonth yv mv then some ⟨mv, dv, yv⟩
      else none
    else none
  | _ => none

/-- Source `recent_enough(last_str, skip_days)`.  The ambient clock enters as
`elapsedUs`, the value of `datetime.now() - d` in microseconds for a parsed
date `d`; `timedelta(days=skip_days)` is `skip_days * 86400000000`
microseconds. -/
def recent_enough (elapsedUs : MDYDate → Int) (last_str : String)
    (skip_days : Int) : Bool :=
  if skip_days ≤ 0 then false
  else
    match parse_mmddyyyy last_str with
    | none => false
    | some d => decide (elapsedUs d < skip_days * 86400000000)

/-- A positive signal-extractor match on a primary observation: a removal
phrase of some platform list in the body, the Threads unavailability badge in
the body, a missing-id URL-path test true on the (lowercased) final URL, or
the canonical-URL test true. -/
def positiveSignalObs (o : PageObservation) : Bool :=
  contains_any (page_text o.html) (INST_REMOVAL_PHRASES.map lowerStr) ||
  contains_any (page_text o.html) (YT_REMOVAL.map lowerStr) ||
  contains_any (page_text o.html) (TT_REMOVAL.map lowerStr) ||
  contains_any (page_text o.html) (FB_REMOVAL.map lowerStr) ||
  strHas THREADS_UNAVAILABLE_BADGE (page_text o.html) ||
  fb_watch_missing_v (lowerStr o.url) ||
  fb_reel_missing_id (lowerStr o.url) ||
  canonical_says_no_media o.canonical

/-- A positive signal-extractor match on a secondary-probe observation. -/
def positiveSignalProbe (pr : ProbeResult) : Bool :=
  contains_any pr.body (FB_REMOVAL.map lowerStr) ||
  (strHas "/watch" pr.canonical && !(strHas "?v=" pr.canonical)) ||
  fb_reel_missing_id pr.canonical ||
  fb_watch_missing_v pr.finalUrl

/-- Whether the secondary probe, if it ran and returned, positively matched. -/
def probeMatches : Option ProbeResult → Bool
  | none => false
  | some pr => fb_secondary_match pr

/-- Whether the URL's host matches no known platform fragment (including the
case where `urlparse` raises). -/
def hostUnmatched (u : String) : Bool :=
  match urlparseO u with
  | none => true
  | some pr =>
    !(strHas "instagram.com" (lowerStr pr.netloc) ||
      strHas "youtube.com" (lowerStr pr.netloc) || strHas "youtu.be" (lowerStr pr.netloc) ||
      strHas "tiktok.com" (lowerStr pr.netloc) ||
      strHas "facebook.com" (lowerStr pr.netloc) || strHas "fb.watch" (lowerStr pr.netloc) ||
      strHas "threads.net" (lowerStr pr.netloc) || strHas "threads.com" (lowerStr pr.netloc))

/-- Concrete observation used to refute the claim that the Facebook removal
phrase with no video indicator suffices for `removed`: phrase present, no
video indicators, but no canonical marker. -/
def c2obs : PageObservation :=
  ⟨"https://www.facebook.com/123", "this content isn't available right now",
   200, false, false, "", none⟩

/-- Concrete observation with phrase, no video indicator and a bare `/watch`
canonical, for the amended Facebook rule (a). -/
def c2wobs : PageObservation :=
  ⟨"https://www.facebook.com/x", "may have been removed",
   200, false, false, "https://www.facebook.com/watch", none⟩

/-- Concrete Threads observation whose final URL carries the `invalid_post`
error parameter but whose body lacks the unavailability badge. -/
def c3obs : PageObservation :=
  ⟨"https://www.threads.com/?error=invalid_post", "", 200, false, false, "", none⟩

/-- Concrete Facebook observation with a `/watch` final URL without `v`, a
benign body and both video indicators set. -/
def c4obs : PageObservation :=
  ⟨"https://facebook.com/watch/", "all good here", 200, true, true, "", none⟩

/-- Concrete Facebook observation with an Open Graph video indicator, a
removal phrase in the body and a `/watch` final URL without `v`. -/
def c5obs : PageObservation :=
  ⟨"https://facebook.com/watch/", "this content isn't available right now",
   200, true, false, "", none⟩

/-- Concrete Facebook observation with an Open Graph video indicator and a
removal phrase, whose final URL carries no missing-id marker. -/
def c5wobs : PageObservation :=
  ⟨"https://facebook.com/somepost", "may have been removed",
   200, true, false, "", none⟩

/-- Concrete Instagram observation whose body holds a removal phrase. -/
def c1wobs : PageObservation :=
  ⟨"http://instagram.com", "page not found", 200, false, false, "", none⟩

theorem toNat_ofNat_valid (n : Nat) (hv : n.isValidChar) :
    (Char.ofNat n).toNat = n := by
  unfold Char.ofNat
  rw [dif_pos hv]
  rfl

theorem char_toLower_idem (c : Char) : c.toLower.toLower = c.toLower := by
  by_cases h : c.toNat ≥ 65 ∧ c.toNat ≤ 90
  · have e1 : c.toLower = Char.ofNat (c.toNat + 32) := by
      simp only [Char.toLower]
      rw [if_pos h]
    have hv : (c.toNat + 32).isValidChar := Or.inl (by omega)
    have ht : (Char.ofNat (c.toNat + 32)).toNat = c.toNat + 32 :=
      toNat_ofNat_valid _ hv
    rw [e1]
    simp only [Char.toLower]
    rw [if_neg]
    rw [ht]
    omega
  · have e1 : c.toLower = c := by
      simp only [Char.toLower]
      rw [if_neg h]
    rw [e1]
    exact e1

theorem map_toLower_idem (l : List Char) :
    (l.map Char.toLower).map Char.toLower = l.map Char.toLower := by
  induction l with
  | nil => rfl
  | cons a t ih => simp [char_toLower_idem, ih]

theorem lowerStr_idem (s : String) : lowerStr (lowerStr s) = lowerStr s :=
  congrArg String.mk (map_toLower_idem s.data)

theorem fb_tail_ne_removed (o : PageObservation) : fb_tail o ≠ "removed" := by
  unfold fb_tail
  split_ifs <;> decide

theorem check_instagram_removed_signal (g : IGNav)
    (h : check_instagram g = "removed") :
    ∃ o, igObs g = some o ∧ positiveSignalObs o = true := by
  cases g with
  | failed => exact absurd h (by decide)
  | ok o =>
    refine ⟨o, rfl, ?_⟩
    simp only [check_instagram, igObs] at h
    split_ifs at h with h1 h2
    · simp [positiveSignalObs, h1]
    · exact absurd h (by decide)
    · rcases hm : o.igDomMarkers with _ | ⟨m1, m2⟩ <;> rw [hm] at h <;> dsimp only at h
      · exact absurd h (by decide)
      · split_ifs at h <;> exact absurd h (by decide)
  | retryOk o =>
    refine ⟨o, rfl, ?_⟩
    simp only [check_instagram, igObs] at h
    split_ifs at h with h1 h2
    · simp [positiveSignalObs, h1]
    · exact absurd h (by decide)
    · rcases hm : o.igDomMarkers with _ | ⟨m1, m2⟩ <;> rw [hm] at h <;> dsimp only at h
      · exact absurd h (by decide)
      · split_ifs at h <;> exact absurd h (by decide)

theorem check_youtube_removed_signal (nav : Option PageObservation)
    (h : check_youtube nav = "removed") :
    ∃ o, nav = some o ∧ positiveSignalObs o = true := by
  cases nav with
  | none => exact absurd h (by decide)
  | some o =>
    refine ⟨o, rfl, ?_⟩
    simp only [check_youtube] at h
    split_ifs at h with h1 h2
    · simp [positiveSignalObs, h1]
    · exact absurd h (by decide)
    · exact absurd h (by decide)

theorem check_tiktok_removed_signal (nav : Option PageObservation)
    (h : check_tiktok nav = "removed") :
    ∃ o, nav = some o ∧ positiveSignalObs o = true := by
  cases nav with
  | none => exact absurd h (by decide)
  | some o =>
    refine ⟨o, rfl, ?_⟩
    simp only [check_tiktok] at h
    split_ifs at h with h1 h2
    · simp [positiveSignalObs, h1]
    · exact absurd h (by decide)
    · exact absurd h (by decide)

theorem check_threads_removed_signal (nav : Option PageObservation)
    (h : check_threads nav = "removed") :
    ∃ o, nav = some o ∧ positiveSignalObs o = true := by
  cases nav with
  | none => exact absurd h (by decide)
  | some o =>
    refine ⟨o, rfl, ?_⟩
    simp only [check_threads] at h
    split_ifs at h with h1 h2
    · simp [positiveSignalObs, h1]
    · exact absurd h (by decide)
    · exact absurd h (by decide)

theorem check_facebook_removed_signal (nav : Option PageObservation)
    (url : String) (probe : Option ProbeResult)
    (h : check_facebook nav url probe = "removed") :
    (∃ o, nav = some o ∧ positiveSignalObs o = true) ∨
    (∃ pr, probe = some pr ∧ positiveSignalProbe pr = true) := by
  cases nav with
  | none =>
    simp only [check_facebook] at h
    exact absurd h (by decide)
  | some o =>
    simp only [check_facebook] at h
    split_ifs at h with h1 h2 h3 h4
    · left; refine ⟨o, rfl, ?_⟩
      simp only [Bool.and_eq_true] at h1
      simp [positiveSignalObs, h1.1]
    · left; refine ⟨o, rfl, ?_⟩
      simp only [Bool.or_eq_true] at h2
      rcases h2 with h2 | h2 <;> simp [positiveSignalObs, h2]
    · left; refine ⟨o, rfl, ?_⟩
      simp only [Bool.and_eq_true] at h3
      simp [positiveSignalObs, h3.1]
    · cases probe with
      | none => exact absurd h (fb_tail_ne_removed o)
      | some pr =>
        dsimp only at h
        split_ifs at h with h5
        · right; refine ⟨pr, rfl, ?_⟩
          simp only [fb_secondary_match, Bool.and_eq_true] at h5
          simp [positiveSignalProbe, h5.1.1]
        · exact absurd h (fb_tail_ne_removed o)
    · exact absurd h (fb_tail_ne_removed o)

/-- C1: for every classification call of every platform classifier, the
verdict `"removed"` is returned only when at least one signal extractor
evaluated to a positive match on a delivered observation (a removal phrase or
the Threads badge in the page body, a missing-id URL-path or canonical-URL
test returning true), on the primary or the secondary-probe observation;
never from defaults, absence of signals, or navigation failure. -/
theorem removed_requires_positive_signal (url : String) (ig : IGNav)
    (nav : Option PageObservation) (probe : Option ProbeResult)
    (h : check_one url ig nav probe = "removed") :
    (∃ o, igObs ig = some o ∧ positiveSignalObs o = true) ∨
    (∃ o, nav = some o ∧ positiveSignalObs o = true) ∨
    (∃ pr, probe = some pr ∧ positiveSignalProbe pr = true) := by
  simp only [check_one] at h
  split_ifs at h
  · exact Or.inl (check_instagram_removed_signal ig h)
  · exact Or.inr (Or.inl (check_youtube_removed_signal nav h))
  · exact Or.inr (Or.inl (check_tiktok_removed_signal nav h))
  · rcases check_facebook_removed_signal nav url probe h with h1 | h1
    · exact Or.inr (Or.inl h1)
    · exact Or.inr (Or.inr h1)
  · exact Or.inr (Or.inl (check_threads_removed_signal nav h))
  · cases nav with
    | none => exact absurd h (by decide)
    | some o =>
      dsimp only at h
      split_ifs at h <;> exact absurd h (by decide)

/-- C1 witness: a concrete Instagram classification that returns `"removed"`,
at which the theorem produces a positive-signal observation. -/
theorem removed_requires_positive_signal_witness :
    (∃ o, igObs (IGNav.ok c1wobs) = some o ∧ positiveSignalObs o = true) ∨
    (∃ o, (none : Option PageObservation) = some o ∧ positiveSignalObs o = true) ∨
    (∃ pr, (none : Option ProbeResult) = some pr ∧ positiveSignalProbe pr = true) :=
  removed_requires_positive_signal "http://instagram.com" (IGNav.ok c1wobs)
    none none (by decide)

/-- C2 counterexample: a Facebook observation with a removal phrase in the
body and no video indicator (no Open Graph video, no JSON-LD video) for which
the classifier returns `"active"`, not `"removed"`: rule (a) additionally
requires the canonical-URL-implies-no-media test. -/
theorem fb_rule_a_counterexample :
    contains_any (page_text c2obs.html) (FB_REMOVAL.map lowerStr) = true ∧
    c2obs.ogVideo = false ∧ c2obs.jsonldVideo = false ∧
    check_facebook (some c2obs) "https://www.facebook.com/123" none = "active" := by
  decide

/-- C2 amended: Facebook rule (a) yields `"removed"` when the body contains a
removal phrase, there is no video indicator, and additionally the
canonical-URL-implies-no-media test is true. -/
theorem fb_rule_a_amended (o : PageObservation) (url : String)
    (probe : Option ProbeResult)
    (hph : contains_any (page_text o.html) (FB_REMOVAL.map lowerStr) = true)
    (hog : o.ogVideo = false) (hjd : o.jsonldVideo = false)
    (hcan : canonical_says_no_media o.canonical = true) :
    check_facebook (some o) url probe = "removed" := by
  simp [check_facebook, hph, hog, hjd, hcan]

/-- C2 witness: the amended rule applied at a concrete observation with
phrase, no video indicator and a bare `/watch` canonical. -/
theorem fb_rule_a_amended_witness :
    check_facebook (some c2wobs) "https://www.facebook.com/x" none = "removed" :=
  fb_rule_a_amended c2wobs "https://www.facebook.com/x" none
    (by decide) rfl rfl (by decide)

/-- C3 counterexample: a Threads observation whose final URL contains the
`invalid_post` error parameter, with success status and no badge in the body,
is classified `"active"`, not `"removed"`: the classifier never inspects the
final URL. -/
theorem threads_invalid_post_counterexample :
    strHas "invalid_post" c3obs.url = true ∧
    strHas "error=invalid_post" (urlparseT c3obs.url).query = true ∧
    check_threads (some c3obs) = "active" := by
  decide

/-- C3 amended: the Threads classifier ignores the final URL entirely; an
observation yields `"removed"` exactly when the body contains the
`post unavailable` badge, and replacing the final URL (for example by one
carrying `error=invalid_post`) never changes the verdict. -/
theorem threads_badge_iff_removed (o : PageObservation) :
    (check_threads (some o) = "removed" ↔
      strHas THREADS_UNAVAILABLE_BADGE (page_text o.html) = true) ∧
    ∀ u, check_threads (some { o with url := u }) = check_threads (some o) := by
  constructor
  · constructor
    · intro h
      simp only [check_threads] at h
      split_ifs at h with h1 h2
      · exact h1
      · exact absurd h (by decide)
      · exact absurd h (by decide)
    · intro h
      simp [check_threads, h]
  · intro u
    rfl

/-- C4: every Facebook observation whose (lowercased) final URL parses to a
path that rstrips to `/watch` with no `v` query key is classified
`"removed"`, regardless of the body text and of any video indicators. -/
theorem fb_watch_missing_v_removed (o : PageObservation) (url : String)
    (probe : Option ProbeResult) (parts : UrlParts)
    (hp : urlparseO (lowerStr o.url) = some parts)
    (hpath : rstripSlashS parts.path = "/watch")
    (hv : (qsKeys parts.query.data).contains ['v'] = false) :
    check_facebook (some o) url probe = "removed" := by
  have hw : fb_watch_missing_v (lowerStr o.url) = true := by
    unfold fb_watch_missing_v
    rw [lowerStr_idem, hp]
    dsimp only
    rw [hpath, hv]
    decide
  rcases Bool.eq_false_or_eq_true
      (contains_any (page_text o.html) (FB_REMOVAL.map lowerStr) &&
        (!o.ogVideo && !o.jsonldVideo && canonical_says_no_media o.canonical))
    with h1 | h1
  · simp [check_facebook, h1]
  · simp [check_facebook, h1, hw]

/-- C4 witness: a `/watch` URL with no `v` parameter, benign body and both
video indicators set is still `"removed"`. -/
theorem fb_watch_missing_v_removed_witness :
    check_facebook (some c4obs) "https://facebook.com/watch/" none = "removed" :=
  fb_watch_missing_v_removed c4obs "https://facebook.com/watch/" none
    ⟨"facebook.com", "/watch/", ""⟩ (by decide) (by decide) (by decide)

/-- C5 counterexample: an observation carrying an Open Graph video indicator
and a removal phrase in the body is still classified `"removed"` when its
final URL is `/watch` with no `v` parameter: the video indicator suppresses
only the removal-phrase and canonical rules, not the URL-path rule. -/
theorem fb_video_phrase_counterexample :
    c5obs.ogVideo = true ∧
    contains_any (page_text c5obs.html) (FB_REMOVAL.map lowerStr) = true ∧
    check_facebook (some c5obs) "https://facebook.com/watch/" none = "removed" := by
  decide

/-- C5 amended: an observation with an Open Graph video indicator and a
removal phrase in the body is never classified `"removed"` provided its final
URL triggers neither missing-id URL-path test and the secondary probe does
not positively match; the verdict is then `"active"` via the video
indicator. -/
theorem fb_video_suppresses_phrase_amended (o : PageObservation) (url : String)
    (probe : Option ProbeResult)
    (hog : o.ogVideo = true)
    (hph : contains_any (page_text o.html) (FB_REMOVAL.map lowerStr) = true)
    (hw : fb_watch_missing_v (lowerStr o.url) = false)
    (hr : fb_reel_missing_id (lowerStr o.url) = false)
    (hpr : probeMatches probe = false) :
    check_facebook (some o) url probe = "active" := by
  cases probe with
  | none => simp [check_facebook, fb_tail, hog, hw, hr]
  | some pr =>
    have h5 : fb_secondary_match pr = false := by simpa [probeMatches] using hpr
    simp [check_facebook, fb_tail, hog, hw, hr, h5]

/-- C5 witness: the amended statement applied at a concrete observation with
video indicator, phrase, no missing-id marker and no probe. -/
theorem fb_video_suppresses_phrase_amended_witness :
    check_facebook (some c5wobs) "https://facebook.com/somepost" none = "active" :=
  fb_video_suppresses_phrase_amended c5wobs "https://facebook.com/somepost" none
    rfl (by decide) (by decide) (by decide) rfl

/-- C6: when navigation fails to produce an observation (the navigation call
raises, including after the wait-condition fallback), every platform
classifier — whichever one the URL routes to — returns `"unknown"`, never
`"removed"`; totality of `check_one` models the exception not propagating. -/
theorem nav_failure_unknown (url : String) (probe : Option ProbeResult) :
    check_one url IGNav.failed none probe = "unknown" := by
  unfold check_one
  split_ifs <;> rfl

/-- C7: every URL whose host matches none of the known platform fragments —
including URLs on which `urlparse` raises — is classified as the generic
fallback platform value `"unknown"`; the function is total, so it never
throws. -/
theorem unmatched_host_generic (u : String) (h : hostUnmatched u = true) :
    host_platform u = "unknown" := by
  unfold hostUnmatched at h
  unfold host_platform
  cases hp : urlparseO u with
  | none => rfl
  | some pr =>
    rw [hp] at h
    dsimp only at h ⊢
    simp only [Bool.not_eq_true', Bool.or_eq_false_iff] at h
    obtain ⟨⟨⟨⟨⟨⟨⟨hA, hB⟩, hC⟩, hD⟩, hE⟩, hF⟩, hG⟩, hH⟩ := h
    simp [hA, hB, hC, hD, hE, hF, hG, hH]

/-- C7 witness: a concrete unmatched host resolves to the generic value. -/
theorem unmatched_host_generic_witness :
    hostUnmatched "https://example.org/a" = true ∧
    host_platform "https://example.org/a" = "unknown" :=
  ⟨by decide, unmatched_host_generic "https://example.org/a" (by decide)⟩

/-- C8: under the sharding contract, for every row ordinal `i` and every
`totalShards ≥ 1`, the row is selected by shard `s` iff `i % totalShards = s`;
for `totalShards = 4` every ordinal is selected by exactly one of the shard
indices below 4 (so the four shards partition the rows and their union is the
full row set). -/
theorem shard_routing (i T : Nat) (hT : 1 ≤ T) :
    (∀ s : Nat, shard_selected i s T = true ↔ i % T = s) ∧
    (∃! s : Nat, s < 4 ∧ shard_selected i s 4 = true) := by
  constructor
  · intro s
    simp [shard_selected]
  · refine ⟨i % 4, ⟨Nat.mod_lt _ (by norm_num), by simp [shard_selected]⟩, ?_⟩
    rintro s ⟨hs, hsel⟩
    simp only [shard_selected, beq_iff_eq] at hsel
    exact hsel.symm

/-- C8 witness: the sharding contract at a concrete ordinal and shard count. -/
theorem shard_routing_witness :
    (∀ s : Nat, shard_selected 7 s 3 = true ↔ 7 % 3 = s) ∧
    (∃! s : Nat, s < 4 ∧ shard_selected 7 s 4 = true) :=
  shard_routing 7 3 (by decide)

/-- C9: platform identification is substring containment on the netloc, not
exact or suffix domain matching: the host `notinstagram.community` is neither
`instagram.com` nor a subdomain of it, yet the Platform Identifier returns
`"instagram"` for it rather than the generic fallback. -/
theorem host_substring_match_instagram :
    host_platform "https://notinstagram.community/post/1" = "instagram" ∧
    (urlparseO "https://notinstagram.community/post/1").map UrlParts.netloc =
      some "notinstagram.community" ∧
    "notinstagram.community" ≠ "instagram.com" ∧
    endsList ".instagram.com".data "notinstagram.community".data = false := by
  refine ⟨by decide, by decide, by decide, by decide⟩

/-- C10: the recency-skip predicate is total and fails closed: it returns
`false` whenever the skip window is zero or negative, and `false` whenever
the last-checked string is empty or does not parse as `MM/DD/YYYY`, for every
ambient clock. -/
theorem recent_enough_fails_closed (elapsedUs : MDYDate → Int)
    (last : String) (skip_days : Int)
    (h : skip_days ≤ 0 ∨ last = "" ∨ parse_mmddyyyy last = none) :
    recent_enough elapsedUs last skip_days = false := by
  unfold recent_enough
  rcases h with h | h | h
  · simp [h]
  · subst h
    split_ifs with h1
    · rfl
    · rfl
  · split_ifs with h1
    · rfl
    · rw [h]

/-- C10 witness: a malformed last-checked string with a positive window is
not skipped. -/
theorem recent_enough_fails_closed_witness :
    recent_enough (fun _ => 0) "not a date" 7 = false :=
  recent_enough_fails_closed (fun _ => 0) "not a date" 7
    (Or.inr (Or.inr (by decide)))
